import Mathlib

/-!
Shallow embedding of the "Grade Rain of Death" arcade engine
(src/js/Game.js, src/js/NoteType.js, src/js/cookies.js).

Modelling conventions:
* JS numbers that carry positions, speeds, lives and weights are exact
  rationals (`Rat`); scores are `Int`.
* `performance.now()` timestamps and `Math.random()` draws are passed in
  as explicit oracle parameters.
* Audio playback (`playSfx`) is recorded in an event log on the game
  state; a cue is logged exactly when the corresponding audio asset is
  present (the `if (!audio) return;` guard of the source).
* `setInterval`/`clearInterval` are modelled by an explicit scheduler
  holding the set of active interval ids; one 5000 ms period of the timer
  queue fires every active interval callback once.
* Session storage (cookies.js) is a record of the string-keyed values the
  code reads and writes; `sessionStorage.getItem` of an absent key is
  `none` (JS `null`).
* A JS function that can throw on some input (indexing into `undefined`)
  is embedded with an `Option` result, `none` meaning the call throws.
-/

namespace GradeRain

/-- Which of the three `onCatch` closure bodies from `buildNoteTypes`
(NoteType.js) a registry entry carries: the "A" body (score + life +
"goodA" cue), the plain positive body (score + "good" cue, shared by
B/C/D/E), or the damage body (life loss + damage notify + "bad" cue +
game-over check, shared by Fx/F). -/
inductive CatchKind where
  | collectA
  | collect
  | damage
  deriving DecidableEq

/-- NoteType (NoteType.js): immutable registry entry. `catchKind` stands
for the `onCatch` strategy closure attached at construction time. -/
structure NoteType where
  name : String
  src : String
  weight : Rat
  score : Int
  lifeDelta : Rat
  catchKind : CatchKind
  deriving DecidableEq

/-- The registry built by `buildNoteTypes()` in NoteType.js. -/
def buildNoteTypes : List NoteType :=
  [ { name := "A", src := "./assets/images/A.png", weight := 5/100,
      score := 100, lifeDelta := 25/100, catchKind := .collectA },
    { name := "B", src := "./assets/images/B.png", weight := 10/100,
      score := 50, lifeDelta := 0, catchKind := .collect },
    { name := "C", src := "./assets/images/C.png", weight := 15/100,
      score := 30, lifeDelta := 0, catchKind := .collect },
    { name := "D", src := "./assets/images/D.png", weight := 15/100,
      score := 20, lifeDelta := 0, catchKind := .collect },
    { name := "E", src := "./assets/images/E.png", weight := 15/100,
      score := 10, lifeDelta := 0, catchKind := .collect },
    { name := "Fx", src := "./assets/images/Fx.png", weight := 25/100,
      score := 0, lifeDelta := -(50/100), catchKind := .damage },
    { name := "F", src := "./assets/images/F.png", weight := 15/100,
      score := 0, lifeDelta := -1, catchKind := .damage } ]

/-- Note entity (NoteType.js `Note` constructor): a single falling
instance. Field order mirrors the constructor's assignments. -/
structure Note where
  type : NoteType
  w : Rat
  h : Rat
  x : Rat
  y : Rat
  dy : Rat
  deriving DecidableEq

/-- `notePrototype.update`: advance the note downward by its speed. -/
def Note.update (n : Note) : Note :=
  { n with y := n.y + n.dy }

/-- `notePrototype.isOut`: the note has fully exited below the canvas. -/
def Note.isOut (n : Note) (canvasHeight : Rat) : Bool :=
  decide (n.y > canvasHeight)

/-- `notePrototype.collidesWithRect`: AABB overlap test against a
rectangle. -/
def Note.collidesWithRect (n : Note) (rx ry rw rh : Rat) : Bool :=
  decide (n.x < rx + rw) && decide (n.x + n.w > rx) &&
    decide (n.y < ry + rh) && decide (n.y + n.h > ry)

/-- Game state (the `Game` constructor in Game.js). Rendering-only asset
handles (images, canvas context) are omitted; the audio map is kept as a
presence predicate `sfxPresent` consulted by `playSfx`, and `events`
logs the cues actually played. -/
structure Game where
  canvasWidth : Rat
  canvasHeight : Rat
  numberOfPlayers : Nat
  user : String
  username : String
  sfxPresent : String → Bool
  noteWidth : Rat
  noteHeight : Rat
  caracterWidth : Rat
  caracterHeight : Rat
  score : Int
  lives : Rat
  gameStarted : Bool
  isGameOver : Bool
  gameOverAlreadyHandled : Bool
  dead : Bool
  rightPressed : Bool
  leftPressed : Bool
  directionToken : Bool
  difficultyLevel : Nat
  difficultyIntervalId : Option Nat
  startPromptBlinkStart : Rat
  livesLostAnimStart : Option Rat
  livesLostAnimDuration : Rat
  blinkStart : Rat
  deathAnimStart : Option Rat
  deathAnimDuration : Rat
  notes : List Note
  caracterX : Rat
  noteTypes : List NoteType
  totalWeight : Rat
  bgmVolume : Rat
  events : List String

/-- `playSfx(key)`: logs the cue when the asset exists; the source's
autoplay failures are swallowed and do not affect state. -/
def playSfx (g : Game) (key : String) : Game :=
  if g.sfxPresent key then { g with events := g.events ++ [key] } else g

/-- `addScore(delta)`: unconditional score increment. -/
def addScore (g : Game) (delta : Int) : Game :=
  { g with score := g.score + delta }

/-- `addLives(delta)`: unconditional (fractional) life increment. -/
def addLives (g : Game) (delta : Rat) : Game :=
  { g with lives := g.lives + delta }

/-- `notifyDamage()`: arms the damage-feedback animation timer at the
current `performance.now()` value. -/
def notifyDamage (now : Rat) (g : Game) : Game :=
  { g with livesLostAnimStart := some now }

/-- `checkGameOver()` (Game.js lines 463-477): no-op while lives remain;
otherwise clamps lives to 0, sets the game-over flag, arms the death
animation timer only if unarmed, and plays the "gameOver" cue. -/
def checkGameOver (now : Rat) (g : Game) : Game :=
  if g.lives > 0 then g
  else
    let g1 := { g with lives := 0, isGameOver := true }
    let g2 :=
      match g1.deathAnimStart with
      | none => { g1 with deathAnimStart := some now }
      | some _ => g1
    playSfx g2 "gameOver"

/-- The `onCatch` strategy bodies of NoteType.js, dispatched by the kind
carried on the registry entry; `applyCollisionEffects` in Game.js invokes
exactly this with the caught note's type. -/
def onCatch (now : Rat) (g : Game) (t : NoteType) : Game :=
  match t.catchKind with
  | .collectA => playSfx (addLives (addScore g t.score) t.lifeDelta) "goodA"
  | .collect => playSfx (addScore g t.score) "good"
  | .damage =>
      checkGameOver now (playSfx (notifyDamage now (addLives g t.lifeDelta)) "bad")

/-- The body of the `updateNotes` loop (Game.js lines 568-588), which
iterates backward over `this.notes` and splices during traversal:
recursing on the tail first processes the higher indices first, exactly
as the backward loop does, and threads the game state so an earlier
iteration's `checkGameOver` is seen by later (lower-index) iterations. -/
def updateNotesGo (now cH px py pw ph : Rat) : Game → List Note → Game × List Note
  | g, [] => (g, [])
  | g, n :: ns =>
      let p := updateNotesGo now cH px py pw ph g ns
      let g1 := p.1
      let ns' := p.2
      let n' := n.update
      if n'.isOut cH then (g1, ns')
      else if g1.isGameOver then (g1, n' :: ns')
      else if n'.collidesWithRect px py pw ph then (onCatch now g1 n'.type, ns')
      else (g1, n' :: ns')

/-- `updateNotes()`: computes the paddle rectangle once, then runs the
backward update/prune/collide loop. -/
def updateNotes (now : Rat) (g : Game) : Game :=
  let px := g.caracterX
  let py := g.canvasHeight - g.caracterHeight
  let pw := g.caracterWidth
  let ph := g.caracterHeight
  let p := updateNotesGo now g.canvasHeight px py pw ph g g.notes
  { p.1 with notes := p.2 }

/-- `updatePlayer()` (Game.js lines 520-543): frozen after game over;
otherwise one 10-unit step with the round-robin tie-break token, the
boundary being tested before the step. The source assigns
`directionToken` after its if/else chain; here the assignment is folded
into each branch, which is the same state transition. -/
def updatePlayer (g : Game) : Game :=
  if g.isGameOver = true then g
  else if g.directionToken = true then
    if g.rightPressed = true ∧ g.caracterX < g.canvasWidth - g.caracterWidth then
      { g with caracterX := g.caracterX + 10, directionToken := false }
    else if g.leftPressed = true ∧ g.caracterX > 0 then
      { g with caracterX := g.caracterX - 10, directionToken := false }
    else { g with directionToken := false }
  else
    if g.leftPressed = true ∧ g.caracterX > 0 then
      { g with caracterX := g.caracterX - 10, directionToken := true }
    else if g.rightPressed = true ∧ g.caracterX < g.canvasWidth - g.caracterWidth then
      { g with caracterX := g.caracterX + 10, directionToken := true }
    else { g with directionToken := true }

/-- The accumulator loop of `getRandomNoteType()` (Game.js lines
493-496): running sum of weights, returning the first entry whose
cumulative sum strictly exceeds the draw. -/
def selectLoop (r : Rat) : Rat → List NoteType → Option NoteType
  | _, [] => none
  | sum, t :: ts =>
      if r < sum + t.weight then some t else selectLoop r (sum + t.weight) ts

/-- `getRandomNoteType()`: draws `r = rand * totalWeight` (with `rand`
the `Math.random()` oracle), runs the accumulator loop, and falls back to
`noteTypes[noteTypes.length - 1]` — which is the last entry for a
non-empty registry and JS `undefined` (here `none`) for an empty one. -/
def getRandomNoteType (g : Game) (rand : Rat) : Option NoteType :=
  let r := rand * g.totalWeight
  match selectLoop r 0 g.noteTypes with
  | some t => some t
  | none => g.noteTypes.getLast?

/-- The inclusive prefix sums of the registry weights: entry `i` is the
cumulative weight of the first `i + 1` registry entries. -/
def prefixSums : List NoteType → List Rat
  | [] => []
  | t :: ts => t.weight :: (prefixSums ts).map (fun c => t.weight + c)

/-- Modelled from the spec (§4.2 weighted selection): pair every registry
entry with its cumulative weight, return the first entry whose cumulative
weight exceeds the draw `r`, and if no entry matches return the last
registry entry (`getLast?`, which is `none` exactly when the registry is
empty, matching the source's `undefined`). Stated over explicit
cumulative weights rather than the source's running accumulator, to serve
as the specification side of the refinement. -/
def pickNoteTypeSpec (types : List NoteType) (r : Rat) : Option NoteType :=
  match (types.zip (prefixSums types)).find? (fun p => decide (r < p.2)) with
  | some p => some p.1
  | none => types.getLast?

/-- The host's interval-timer table: `setInterval` allocates the next id
and marks it active, `clearInterval` removes it. -/
structure Scheduler where
  nextId : Nat
  active : List Nat
  deriving DecidableEq

/-- `startDifficultyRamp()`: idempotent via the stored interval id; a new
interval is registered with the host scheduler. Every interval the game
ever registers increments this same game's `difficultyLevel`. -/
def startDifficultyRamp (g : Game) (sched : Scheduler) : Game × Scheduler :=
  if g.difficultyIntervalId ≠ none then (g, sched)
  else
    ({ g with difficultyIntervalId := some sched.nextId },
     { nextId := sched.nextId + 1, active := sched.nextId :: sched.active })

/-- `stopDifficultyRamp()`: idempotent; clears the stored interval with
the host scheduler and forgets the handle. -/
def stopDifficultyRamp (g : Game) (sched : Scheduler) : Game × Scheduler :=
  match g.difficultyIntervalId with
  | none => (g, sched)
  | some i => ({ g with difficultyIntervalId := none },
               { sched with active := sched.active.erase i })

/-- One 5000 ms period of the host timer queue: every interval callback
still registered fires once, and each difficulty-ramp callback increments
the owning game's `difficultyLevel` (Game.js lines 134-136). -/
def intervalTick (sched : Scheduler) (g : Game) : Game :=
  { g with difficultyLevel := g.difficultyLevel + sched.active.length }

/-- Session storage (cookies.js): the shared game-state handshake keys,
the per-user score entries, and an instrumentation log of every
`set_score_session` call (used to count score-persistence events). -/
structure Storage where
  gameStateBool : Option String
  gameStateUser : Option String
  gameStateScore : Option String
  userScores : List (String × String)
  persistLog : List (String × Int)
  deriving DecidableEq

/-- `sessionStorage.setItem` on the per-user score table. -/
def storeSet (l : List (String × String)) (k v : String) : List (String × String) :=
  match l with
  | [] => [(k, v)]
  | (k', v') :: rest =>
      if k' = k then (k, v) :: rest else (k', v') :: storeSet rest k v

/-- `set_score_session(user, score)` (cookies.js): persists the score
under the key `user ++ " score"` as a string. -/
def set_score_session (user : String) (score : Int) (s : Storage) : Storage :=
  { s with userScores := storeSet s.userScores (user ++ " score") (toString score),
           persistLog := s.persistLog ++ [(user, score)] }

/-- `increment_game_state(user, score)` (cookies.js lines 200-216): reads
the handshake flag, unconditionally marks it "true", then branches on the
value read. A read of anything other than the strings "true"/"false"
(in particular JS `null`) falls off the end of the function, i.e. returns
`undefined` — embedded as a `none` first component. -/
def increment_game_state (user : String) (score : Int) (s : Storage) :
    Option (Bool × Option String × Option String) × Storage :=
  let s1 := { s with gameStateBool := some "true" }
  if s.gameStateBool = some "false" then
    (some (false, none, none),
     { s1 with gameStateUser := some user, gameStateScore := some (toString score) })
  else if s.gameStateBool = some "true" then
    (some (true, s.gameStateUser, s.gameStateScore), s1)
  else
    (none, s1)

/-- `release_game_state()` (cookies.js lines 222-226). -/
def release_game_state (s : Storage) : Storage :=
  { s with gameStateBool := some "false", gameStateUser := some "",
           gameStateScore := some "0" }

/-- The navigation side effect scheduled by `gameOver` via `setTimeout`:
its fixed delay and the exact argument list handed to
`viewHighscores(numberOfPlayers, update, true, user, score, friend,
friendScore)`; the delayed callback also stops the difficulty ramp. -/
structure NavCall where
  delay : Rat
  numberOfPlayers : Nat
  update : Bool
  direct : Bool
  user : String
  score : Int
  friendUser : Option String
  friendScore : Option String
  deriving DecidableEq

/-- `gameOver(update)` (Game.js lines 255-281): guarded by `dead`;
persists the score, runs the handshake, and schedules the 2000 ms delayed
navigation for the single player or for the second instance to finish.
`none` means the call threw (indexing into the `undefined` returned by
`increment_game_state` on an uninitialized handshake). -/
def gameOverRun (update : Bool) (g : Game) (s : Storage) :
    Option (Game × Storage × Option NavCall) :=
  if g.dead = true then some (g, s, none)
  else
    let g1 := { g with dead := true }
    let s1 := set_score_session g.user g.score s
    match increment_game_state g.user g.score s1 with
    | (none, _) => none
    | (some (isMyfriendLose, myUserFriend, myUserFriendScore), s2) =>
        if g1.numberOfPlayers = 1 ∨ isMyfriendLose = true then
          some (g1, s2,
            some { delay := 2000, numberOfPlayers := g1.numberOfPlayers,
                   update := update, direct := true, user := g1.user,
                   score := g1.score, friendUser := myUserFriend,
                   friendScore := myUserFriendScore })
        else
          some (g1, s2, none)

/-- The one-shot trigger tail of `drawGameOver()` (Game.js lines
985-988), which runs on every frame that draws the game-over overlay:
on the first such frame it latches `gameOverAlreadyHandled` and invokes
`gameOver(true)`. -/
def drawGameOverTrigger (g : Game) (s : Storage) :
    Option (Game × Storage × Option NavCall) :=
  if g.gameOverAlreadyHandled = true then some (g, s, none)
  else gameOverRun true { g with gameOverAlreadyHandled := true } s

/-- `n` successive game-over frames, collecting every navigation the
rendering path schedules. -/
def runFrames : Nat → Game → Storage → Option (Game × Storage × List NavCall)
  | 0, g, s => some (g, s, [])
  | n + 1, g, s =>
      match drawGameOverTrigger g s with
      | none => none
      | some (g', s', nav) =>
          match runFrames n g' s' with
          | none => none
          | some (g'', s'', navs) => some (g'', s'', nav.toList ++ navs)

/-- `resetStateToDefaults()` (Game.js lines 203-244): restores the
mutable runtime state; the session-resolved display name is an input
(the `get_name` collaborator), uppercased as in the source. Note that
`difficultyIntervalId` is set to `null` without any `clearInterval`, so
the host scheduler is untouched; `directionToken` is not reset. -/
def resetStateToDefaults (now : Rat) (resolvedName : String) (g : Game) : Game :=
  { g with score := 0, lives := 3,
           username := resolvedName.toUpper,
           gameStarted := false, isGameOver := false,
           gameOverAlreadyHandled := false, dead := false,
           rightPressed := false, leftPressed := false,
           difficultyLevel := 1, difficultyIntervalId := none,
           startPromptBlinkStart := now, livesLostAnimStart := none,
           blinkStart := now, deathAnimStart := none,
           notes := [], caracterX := (g.canvasWidth - g.caracterWidth) / 2,
           bgmVolume := 1 }

/-- `restart()` (Game.js lines 180-197): releases the shared handshake,
resets runtime state, re-arms gameplay, starts the difficulty ramp and
restores music volume. -/
def restart (now : Rat) (resolvedName : String) (g : Game) (sched : Scheduler)
    (s : Storage) : Game × Scheduler × Storage :=
  let s' := release_game_state s
  let g1 := resetStateToDefaults now resolvedName g
  let g2 := { g1 with gameStarted := true }
  let p := startDifficultyRamp g2 sched
  let g3 := { p.1 with bgmVolume := 1 }
  (g3, p.2, s')

/-- Highscore entry (cookies.js `Player` class). -/
structure Player where
  name : String
  score : Int
  deriving DecidableEq

/-- `HIGHSCORE_LIMIT` (cookies.js line 52). -/
def HIGHSCORE_LIMIT : Nat := 10

/-- Stable descending insertion used to model `Array.prototype.sort`
with the comparator `(a, b) => b.score - a.score`. -/
def insertDesc (p : Player) : List Player → List Player
  | [] => [p]
  | q :: qs => if q.score < p.score then p :: q :: qs else q :: insertDesc p qs

/-- `actual.sort(function (a, b) { return b.score - a.score; })`:
stable sort by descending score. -/
def sortByScoreDesc (l : List Player) : List Player :=
  l.foldr insertDesc []

/-- Boolean check that a list is sorted by non-increasing score. -/
def isSortedByScoreDesc : List Player → Bool
  | [] => true
  | [_] => true
  | a :: b :: r => decide (b.score ≤ a.score) && isSortedByScoreDesc (b :: r)

/-- `update_highscores(user, score)` (cookies.js lines 172-187) acting on
the persisted list: push the new entry, sort descending, and persist.
The source's `actual.slice(HIGHSCORE_LIMIT)` computes a truncation whose
result is discarded (not reassigned), so no truncation is applied here
either. The resolved display name (`get_name`) is an input. -/
def update_highscores (resolvedName : String) (score : Int)
    (stored : List Player) : List Player :=
  let actual := stored ++ [{ name := resolvedName, score := score }]
  sortByScoreDesc actual

/-- A freshly constructed single-player engine on the non-preview
1000 x 800 canvas, mirroring the `Game` constructor's initial values with
every audio asset present (as `initialiseGame` provides for Player 1). -/
def game0 : Game :=
  { canvasWidth := 1000, canvasHeight := 800, numberOfPlayers := 1,
    user := "Player 1", username := "PLAYER 1",
    sfxPresent := fun _ => true,
    noteWidth := 80, noteHeight := 80,
    caracterWidth := 150, caracterHeight := 250,
    score := 0, lives := 3,
    gameStarted := false, isGameOver := false,
    gameOverAlreadyHandled := false, dead := false,
    rightPressed := false, leftPressed := false, directionToken := true,
    difficultyLevel := 1, difficultyIntervalId := none,
    startPromptBlinkStart := 0, livesLostAnimStart := none,
    livesLostAnimDuration := 500, blinkStart := 0,
    deathAnimStart := none, deathAnimDuration := 1200,
    notes := [], caracterX := (1000 - 150) / 2,
    noteTypes := buildNoteTypes,
    totalWeight := (buildNoteTypes.map (fun t => t.weight)).sum,
    bgmVolume := 1, events := [] }

/-- A mid-run state about to die: an F-type catch at half a life has just
applied its -1 life delta (lives are now -1/2) and `checkGameOver` has
not run yet. -/
def c1Before : Game :=
  { game0 with gameStarted := true, lives := -(1/2), score := 230 }

/-- An arbitrary live note used to populate a mid-run state. -/
def c2Note : Note :=
  { type := { name := "B", src := "./assets/images/B.png", weight := 10/100,
              score := 50, lifeDelta := 0, catchKind := .collect },
    w := 80, h := 80, x := 120, y := 50, dy := 3 }

/-- A mid-run state whose difficulty ramp interval (id 0) is live in the
host scheduler. -/
def c2Game : Game :=
  { game0 with gameStarted := true, score := 500, lives := 3/2,
               difficultyLevel := 4, difficultyIntervalId := some 0,
               notes := [c2Note] }

/-- The host scheduler while that ramp is running. -/
def c2Sched : Scheduler := { nextId := 1, active := [0] }

/-- Session storage as an earlier run left it. -/
def c2Stor : Storage :=
  { gameStateBool := some "true", gameStateUser := some "Player 1",
    gameStateScore := some "500", userScores := [], persistLog := [] }

/-- The outcome of calling `restart()` on that mid-run state. -/
def c2Res : Game × Scheduler × Storage := restart 999 "Alice" c2Game c2Sched c2Stor

/-- A persisted highscore list already holding `HIGHSCORE_LIMIT` entries. -/
def c8Stored : List Player :=
  [⟨"P1", 100⟩, ⟨"P2", 95⟩, ⟨"P3", 90⟩, ⟨"P4", 85⟩, ⟨"P5", 80⟩,
   ⟨"P6", 75⟩, ⟨"P7", 70⟩, ⟨"P8", 65⟩, ⟨"P9", 60⟩, ⟨"P10", 55⟩]

/-- The custom one-entry registry of the C5 scenario: type "A" with
weight 1, score 100 and life delta +0.25 (caught with the A body). -/
def c5Type : NoteType :=
  { name := "A", src := "./assets/images/A.png", weight := 1,
    score := 100, lifeDelta := 25/100, catchKind := .collectA }

/-- A live A-note one pixel above the bottom of a 600-high canvas, with
the slowest fall speed the spawn formula allows (difficulty 1, zero
random part: 2 + 1/10). -/
def c5Note : Note :=
  { type := c5Type, w := 80, h := 80, x := 100, y := 599, dy := 21/10 }

/-- The C5 scenario state: paddle covering the full canvas width, score
0, lives 3, exactly one live A-note. -/
def c5G : Game :=
  { game0 with canvasHeight := 600, caracterWidth := 1000, caracterX := 0,
               gameStarted := true, notes := [c5Note],
               noteTypes := [c5Type], totalWeight := 1 }

/-- The same note moved up by one fall step, so that after falling it is
still on the canvas and overlapping the paddle. -/
def c5NoteW : Note := { c5Note with y := 596 }

/-- The C5 scenario with the note at the amended position. -/
def c5GW : Game := { c5G with notes := [c5NoteW] }

/-- A note that overlaps the paddle of `game0` and stays on the canvas
after one fall step. -/
def c6Note1 : Note :=
  { type := c5Type, w := 80, h := 80, x := 430, y := 560, dy := 5 }

/-- A note that leaves the canvas of `game0` after one fall step. -/
def c6Note2 : Note :=
  { type := c5Type, w := 80, h := 80, x := 10, y := 799, dy := 3 }

/-- A game-over state still holding live notes, one of which overlaps the
paddle. -/
def c6G : Game :=
  { game0 with isGameOver := true, dead := true,
               gameOverAlreadyHandled := true, score := 120, lives := 0,
               notes := [c6Note1, c6Note2] }

/-- One frame in which only the right key is held (the key handlers have
set `rightPressed`), followed by the per-frame player update. -/
def pressRightFrame (g : Game) : Game :=
  updatePlayer { g with rightPressed := true, leftPressed := false }

/-- First engine instance of a two-player run. -/
def c3G1 : Game := { game0 with numberOfPlayers := 2, score := 70 }

/-- Second engine instance of a two-player run. -/
def c3G2 : Game :=
  { game0 with numberOfPlayers := 2, user := "Player 2",
               username := "PLAYER 2", score := 40 }

/-- Session storage right after `release_game_state()` ran at start. -/
def c3S : Storage :=
  release_game_state
    { gameStateBool := none, gameStateUser := none, gameStateScore := none,
      userScores := [], persistLog := [] }

/-- A single-player state that has just entered game over, before the
rendering path has handled it. -/
def c4G : Game := { game0 with isGameOver := true, lives := 0, score := 310 }

/-- Session storage with the handshake released, as `start`/`restart`
leave it. -/
def c4S : Storage :=
  { gameStateBool := some "false", gameStateUser := some "",
    gameStateScore := some "0", userScores := [], persistLog := [] }

/-- Session storage in which the handshake flag was never initialized. -/
def c10S : Storage :=
  { gameStateBool := none, gameStateUser := none, gameStateScore := none,
    userScores := [], persistLog := [] }

/-- C1: once lives have reached 0 and `checkGameOver` has run, a further
call leaves the death animation timer unchanged (the `null` guard holds)
but executes `playSfx("gameOver")` again, re-firing the game-over cue:
the second call appends a second "gameOver" event. This contradicts the
claim's (and the source comment's) one-shot reading. -/
theorem c1_checkGameOver_refires :
    (checkGameOver 100 c1Before).lives = 0
      ∧ (checkGameOver 250 (checkGameOver 100 c1Before)).deathAnimStart
          = (checkGameOver 100 c1Before).deathAnimStart
      ∧ (checkGameOver 100 c1Before).events = ["gameOver"]
      ∧ (checkGameOver 250 (checkGameOver 100 c1Before)).events
          = ["gameOver", "gameOver"] := by
  with_unfolding_all decide

/-- C2: `restart()` does reset score, lives and the live notes, but
`resetStateToDefaults` nulls `difficultyIntervalId` without any
`clearInterval`, so the old interval (id 0) stays registered while
`startDifficultyRamp` adds a second one (id 1): after the restart both
are active and one 5-second timer period increments the difficulty level
by 2, not at most 1 as the claim requires. -/
theorem c2_restart_double_ticker :
    (c2Res.1.score = 0 ∧ c2Res.1.lives = 3 ∧ c2Res.1.notes = [])
      ∧ c2Res.1.difficultyIntervalId = some 1
      ∧ c2Res.2.1.active = [1, 0]
      ∧ ¬ (c2Res.2.1.active.length ≤ 1)
      ∧ (intervalTick c2Res.2.1 c2Res.1).difficultyLevel
          = c2Res.1.difficultyLevel + 2 := by
  with_unfolding_all decide

/-- C8: inserting an 11th score into a full 10-entry list leaves the
persisted list sorted descending but 11 entries long — the
`slice(HIGHSCORE_LIMIT)` result is discarded in the source, so the
claimed 10-entry cap is not enforced. -/
theorem c8_cap_not_applied :
    c8Stored.length = HIGHSCORE_LIMIT
      ∧ (update_highscores "NEW" 72 c8Stored).length = 11
      ∧ ¬ ((update_highscores "NEW" 72 c8Stored).length ≤ HIGHSCORE_LIMIT)
      ∧ isSortedByScoreDesc (update_highscores "NEW" 72 c8Stored) = true := by
  with_unfolding_all decide

/-- `playSfx` only logs a cue; gameplay state is untouched. -/
@[simp]
theorem playSfx_score (g : Game) (k : String) : (playSfx g k).score = g.score := by
  unfold playSfx; split <;> rfl

@[simp]
theorem playSfx_lives (g : Game) (k : String) : (playSfx g k).lives = g.lives := by
  unfold playSfx; split <;> rfl

@[simp]
theorem playSfx_isGameOver (g : Game) (k : String) :
    (playSfx g k).isGameOver = g.isGameOver := by
  unfold playSfx; split <;> rfl

@[simp]
theorem addScore_score (g : Game) (d : Int) : (addScore g d).score = g.score + d := rfl

@[simp]
theorem addScore_lives (g : Game) (d : Int) : (addScore g d).lives = g.lives := rfl

@[simp]
theorem addLives_lives (g : Game) (d : Rat) : (addLives g d).lives = g.lives + d := rfl

@[simp]
theorem addLives_score (g : Game) (d : Rat) : (addLives g d).score = g.score := rfl

/-- The backward note loop in a game-over state: the game state comes
back unchanged and the surviving notes are exactly the fallen notes that
are still on the canvas, in order. -/
theorem updateNotesGo_gameOver (now cH px py pw ph : Rat) (ns : List Note)
    (g : Game) (hgo : g.isGameOver = true) :
    updateNotesGo now cH px py pw ph g ns
      = (g, (ns.map Note.update).filter (fun n => ! n.isOut cH)) := by
  induction ns with
  | nil => simp [updateNotesGo]
  | cons n ns ih =>
      simp only [updateNotesGo, ih, List.map_cons, List.filter_cons]
      cases h : (Note.update n).isOut cH <;> simp [h, hgo]

/-- C6: once the lifecycle is game over, a per-frame note update performs
no collision-based score or life mutation (even for notes overlapping the
paddle rectangle), while the notes still fall and out-of-bounds pruning
still runs. -/
theorem c6_no_catch_after_gameover (now : Rat) (g : Game)
    (hgo : g.isGameOver = true) :
    (updateNotes now g).score = g.score
      ∧ (updateNotes now g).lives = g.lives
      ∧ (updateNotes now g).notes
          = (g.notes.map Note.update).filter (fun n => ! n.isOut g.canvasHeight) := by
  have h := updateNotesGo_gameOver now g.canvasHeight g.caracterX
    (g.canvasHeight - g.caracterHeight) g.caracterWidth g.caracterHeight
    g.notes g hgo
  simp only [updateNotes]
  rw [h]
  exact ⟨rfl, rfl, rfl⟩

/-- C6 witness: a concrete game-over state with one note overlapping the
paddle and one note leaving the canvas. -/
theorem c6_no_catch_after_gameover_witness :
    (updateNotes 0 c6G).score = c6G.score
      ∧ (updateNotes 0 c6G).lives = c6G.lives
      ∧ (updateNotes 0 c6G).notes
          = (c6G.notes.map Note.update).filter (fun n => ! n.isOut c6G.canvasHeight) :=
  c6_no_catch_after_gameover 0 c6G rfl

/-- C5 (amended): in a run that is not over, with exactly one live note
that after falling is still on the canvas and overlaps the paddle
rectangle, and whose type carries the A catch body, one `updateNotes`
call awards the type's score and life delta and removes the note. -/
theorem c5_single_catch (now : Rat) (g : Game) (n : Note)
    (hnotes : g.notes = [n])
    (hgo : g.isGameOver = false)
    (hin : n.update.isOut g.canvasHeight = false)
    (hcol : n.update.collidesWithRect g.caracterX
              (g.canvasHeight - g.caracterHeight) g.caracterWidth
              g.caracterHeight = true)
    (hk : n.type.catchKind = CatchKind.collectA) :
    (updateNotes now g).score = g.score + n.type.score
      ∧ (updateNotes now g).lives = g.lives + n.type.lifeDelta
      ∧ (updateNotes now g).notes = [] := by
  have htype : n.update.type = n.type := rfl
  unfold updateNotes
  simp only [hnotes, updateNotesGo, hin, hgo, hcol, Bool.false_eq_true,
    if_false, if_true, htype]
  unfold onCatch
  rw [hk]
  simp

/-- C5 witness: the amended scenario at concrete values — registry
[A: weight 1, score 100, life +0.25], full-width paddle, one A-note that
stays on the 600-high canvas after its fall step — yields score 100,
lives 3.25, and no remaining note. -/
theorem c5_single_catch_witness :
    (updateNotes 0 c5GW).score = 100
      ∧ (updateNotes 0 c5GW).lives = 13/4
      ∧ (updateNotes 0 c5GW).notes = [] := by
  have h := c5_single_catch 0 c5GW c5NoteW rfl rfl
    (by with_unfolding_all decide) (by with_unfolding_all decide) rfl
  exact ⟨h.1.trans (by with_unfolding_all decide),
         h.2.1.trans (by with_unfolding_all decide), h.2.2⟩

/-- C5 counterexample: with the note at `y = canvasHeight - 1` as the
claim states it (fall speed 2.1, the minimum the spawn formula allows),
`updateNotes` prunes the note as out of bounds before any collision test,
so the score stays 0 and the lives stay 3 — not 100 and 3.25. -/
theorem c5_counterexample :
    (updateNotes 0 c5G).notes = []
      ∧ (updateNotes 0 c5G).score = 0
      ∧ (updateNotes 0 c5G).lives = 3
      ∧ ¬ ((updateNotes 0 c5G).score = 100 ∧ (updateNotes 0 c5G).lives = 13/4) := by
  with_unfolding_all decide

/-- C9 (amended): the per-frame player update keeps the paddle's left
edge strictly within one 10-unit step of the canvas bounds — the source
tests the boundary before stepping, so positions up to one step beyond
`[0, canvasWidth - caracterWidth]` are reachable — and never moves the
paddle once the game is over. -/
theorem c9_band_invariant (g : Game)
    (h1 : -10 < g.caracterX)
    (h2 : g.caracterX < g.canvasWidth - g.caracterWidth + 10) :
    (-10 < (updatePlayer g).caracterX
       ∧ (updatePlayer g).caracterX < g.canvasWidth - g.caracterWidth + 10)
      ∧ (g.isGameOver = true → (updatePlayer g).caracterX = g.caracterX) := by
  unfold updatePlayer
  split_ifs with hgo hdt hr hl hl' hr'
  · exact ⟨⟨h1, h2⟩, fun _ => rfl⟩
  · refine ⟨⟨?_, ?_⟩, fun hh => absurd hh hgo⟩
    · show (-10 : Rat) < g.caracterX + 10
      linarith
    · show g.caracterX + 10 < g.canvasWidth - g.caracterWidth + 10
      linarith [hr.2]
  · refine ⟨⟨?_, ?_⟩, fun hh => absurd hh hgo⟩
    · show (-10 : Rat) < g.caracterX - 10
      linarith [hl.2]
    · show g.caracterX - 10 < g.canvasWidth - g.caracterWidth + 10
      linarith
  · exact ⟨⟨h1, h2⟩, fun hh => absurd hh hgo⟩
  · refine ⟨⟨?_, ?_⟩, fun hh => absurd hh hgo⟩
    · show (-10 : Rat) < g.caracterX - 10
      linarith [hl'.2]
    · show g.caracterX - 10 < g.canvasWidth - g.caracterWidth + 10
      linarith
  · refine ⟨⟨?_, ?_⟩, fun hh => absurd hh hgo⟩
    · show (-10 : Rat) < g.caracterX + 10
      linarith
    · show g.caracterX + 10 < g.canvasWidth - g.caracterWidth + 10
      linarith [hr'.2]
  · exact ⟨⟨h1, h2⟩, fun hh => absurd hh hgo⟩

/-- C9 witness: the band invariant instantiated at the freshly
constructed engine. -/
theorem c9_band_invariant_witness :
    (-10 < (updatePlayer game0).caracterX
       ∧ (updatePlayer game0).caracterX
           < game0.canvasWidth - game0.caracterWidth + 10)
      ∧ (game0.isGameOver = true
           → (updatePlayer game0).caracterX = game0.caracterX) :=
  c9_band_invariant game0 (by with_unfolding_all decide)
    (by with_unfolding_all decide)

set_option maxRecDepth 20000 in
/-- C9 counterexample: from the initial centered position (x = 425 on the
1000-wide canvas), 43 frames of holding the right key drive the paddle to
x = 855, which exceeds `canvasWidth - caracterWidth = 850`: the claimed
bound `[0, canvasWidth - caracterWidth]` does not hold after every
update. -/
theorem c9_counterexample :
    (pressRightFrame^[43] game0).caracterX = 855
      ∧ ¬ ((pressRightFrame^[43] game0).caracterX
             ≤ game0.canvasWidth - game0.caracterWidth) := by
  with_unfolding_all decide

/-- The accumulator loop, started at running sum `s`, agrees with a
first-match search over the cumulative weights shifted by `s`. -/
theorem selectLoop_eq_spec (r : Rat) :
    ∀ (ts : List NoteType) (s : Rat),
      selectLoop r s ts
        = ((ts.zip ((prefixSums ts).map (fun c => s + c))).find?
            (fun p => decide (r < p.2))).map Prod.fst := by
  intro ts
  induction ts with
  | nil => intro s; rfl
  | cons t ts ih =>
      intro s
      have hcomp : ((prefixSums ts).map (fun c => t.weight + c)).map (fun c => s + c)
          = (prefixSums ts).map (fun c => (s + t.weight) + c) := by
        rw [List.map_map]
        have hfun : ((fun c => s + c) ∘ (fun c => t.weight + c))
            = (fun c => (s + t.weight) + c) := by
          funext c
          simp [add_assoc]
        rw [hfun]
      simp only [prefixSums, List.map_cons, List.zip_cons_cons, hcomp]
      by_cases hb : r < s + t.weight
      · rw [List.find?_cons_of_pos _ (by simpa using hb)]
        simp [selectLoop, hb]
      · rw [List.find?_cons_of_neg _ (by simpa using hb)]
        simp only [selectLoop, hb, if_false]
        exact ih (s + t.weight)

/-- C7: `getRandomNoteType` refines the spec's weighted selection: for
every registry and every draw, it returns the first entry whose
cumulative weight (accumulated in registry order) exceeds the draw, and
otherwise — including a zero or negative total weight and the empty
registry — the last registry entry (`undefined`, i.e. `none`, when the
registry is empty), always returning rather than raising. -/
theorem c7_selection_refines_spec (g : Game) (rand : Rat) :
    getRandomNoteType g rand = pickNoteTypeSpec g.noteTypes (rand * g.totalWeight) := by
  simp only [getRandomNoteType, pickNoteTypeSpec]
  rw [selectLoop_eq_spec (rand * g.totalWeight) g.noteTypes 0]
  have hid : (prefixSums g.noteTypes).map (fun c => (0 : Rat) + c)
      = prefixSums g.noteTypes := by
    simp
  rw [hid]
  cases (g.noteTypes.zip (prefixSums g.noteTypes)).find?
      (fun p => decide (rand * g.totalWeight < p.2)) with
  | none => rfl
  | some p => rfl

/-- Once the rendering path has latched `gameOverAlreadyHandled`, every
further game-over frame is a no-op. -/
theorem runFrames_handled (n : Nat) :
    ∀ (g : Game) (s : Storage), g.gameOverAlreadyHandled = true →
      runFrames n g s = some (g, s, []) := by
  induction n with
  | zero => intro g s _; rfl
  | succ n ih =>
      intro g s h
      simp [runFrames, drawGameOverTrigger, h, ih g s h]

/-- C4: across any number `n ≥ 1` of game-over frames, the higher-level
transition (score persistence + navigation scheduling) fires exactly
once: exactly one navigation is scheduled and exactly one score-persist
event is appended, even though the rendering path checks the guard on
every frame. -/
theorem c4_transition_once (n : Nat) (g : Game) (s : Storage)
    (hn : 1 ≤ n) (_hgo : g.isGameOver = true)
    (hh : g.gameOverAlreadyHandled = false) (hd : g.dead = false)
    (hp : g.numberOfPlayers = 1) (hs : s.gameStateBool = some "false") :
    ∃ g' s' navs, runFrames n g s = some (g', s', navs)
      ∧ navs.length = 1
      ∧ s'.persistLog = s.persistLog ++ [(g.user, g.score)] := by
  obtain ⟨m, rfl⟩ : ∃ m, n = m + 1 := ⟨n - 1, by omega⟩
  simp only [runFrames, drawGameOverTrigger, gameOverRun,
    increment_game_state, set_score_session, hh, hd, hp, hs]
  simp [runFrames_handled m]
  exact ⟨_, _, _, ⟨rfl, rfl, rfl⟩, rfl, rfl⟩

/-- C4 witness: 60 game-over frames on a concrete single-player state
schedule exactly one navigation and persist the score exactly once. -/
theorem c4_transition_once_witness :
    ∃ g' s' navs, runFrames 60 c4G c4S = some (g', s', navs)
      ∧ navs.length = 1
      ∧ s'.persistLog = c4S.persistLog ++ [(c4G.user, c4G.score)] :=
  c4_transition_once 60 c4G c4S (by omega) rfl rfl rfl rfl rfl

/-- C3: the two-player game-over handshake. With the shared flag released
("false"), the first instance to reach game over records itself as owner
with its score and schedules no navigation; the second instance then
reads the flag as active, and schedules the navigation — with the fixed
2000 ms display delay — carrying both its own score and the stored
owner's identity and score. A single-player instance schedules the
delayed navigation whatever the (initialized) flag says. -/
theorem c3_handshake_protocol (update : Bool) (g1 g2 : Game) (s : Storage)
    (h1 : g1.dead = false) (h2 : g2.dead = false)
    (hn1 : g1.numberOfPlayers = 2) (hn2 : g2.numberOfPlayers = 2)
    (hs : s.gameStateBool = some "false") :
    (∃ g1' s1,
       gameOverRun update g1 s = some (g1', s1, none)
         ∧ s1.gameStateBool = some "true"
         ∧ s1.gameStateUser = some g1.user
         ∧ s1.gameStateScore = some (toString g1.score)
         ∧ (∃ g2' s2 nav,
              gameOverRun update g2 s1 = some (g2', s2, some nav)
                ∧ nav.delay = 2000 ∧ nav.user = g2.user ∧ nav.score = g2.score
                ∧ nav.friendUser = some g1.user
                ∧ nav.friendScore = some (toString g1.score)))
      ∧ (∀ (h : Game) (s' : Storage), h.dead = false → h.numberOfPlayers = 1 →
           (s'.gameStateBool = some "true" ∨ s'.gameStateBool = some "false") →
           ∃ h' s'' nav, gameOverRun update h s' = some (h', s'', some nav)
             ∧ nav.delay = 2000 ∧ nav.user = h.user ∧ nav.score = h.score) := by
  constructor
  · simp [gameOverRun, increment_game_state, set_score_session, h1, h2,
      hn1, hn2, hs]
    refine ⟨_, _, ⟨rfl, rfl⟩, rfl, rfl, rfl, ?_⟩
    simp
    exact ⟨_, _, _, ⟨rfl, rfl, rfl⟩, rfl, rfl, rfl, rfl, rfl⟩
  · intro h s' hd hp hflag
    rcases hflag with hflag | hflag <;>
      simp [gameOverRun, increment_game_state, set_score_session, hd, hp, hflag] <;>
      exact ⟨_, _, _, ⟨rfl, rfl, rfl⟩, rfl, rfl, rfl⟩

/-- C3 witness: the protocol instantiated at two concrete two-player
instances and a released handshake; the first instance records itself as
owner and does not navigate. -/
theorem c3_handshake_protocol_witness :
    ∃ g1' s1, gameOverRun true c3G1 c3S = some (g1', s1, none)
      ∧ s1.gameStateUser = some c3G1.user := by
  obtain ⟨g1', s1, hrun, _, huser, _, _⟩ :=
    (c3_handshake_protocol true c3G1 c3G2 c3S rfl rfl rfl rfl rfl).1
  exact ⟨g1', s1, hrun, huser⟩

/-- C10: `increment_game_state` returns a tuple exactly when the stored
flag is the string "true" or "false"; on an uninitialized flag it returns
`undefined`, making the game-over path throw when it indexes the result;
and after `release_game_state` the call always returns a tuple. -/
theorem c10_increment_totality (u : String) (sc : Int) (update : Bool)
    (g : Game) (s t : Storage) (hg : g.dead = false) :
    ((increment_game_state u sc s).1.isSome = true
        ↔ (s.gameStateBool = some "true" ∨ s.gameStateBool = some "false"))
      ∧ (s.gameStateBool = none → gameOverRun update g s = none)
      ∧ (increment_game_state u sc (release_game_state t)).1.isSome = true := by
  refine ⟨?_, ?_, ?_⟩
  · by_cases hf : s.gameStateBool = some "false"
    · simp [increment_game_state, hf]
    · by_cases ht : s.gameStateBool = some "true" <;>
        simp [increment_game_state, hf, ht]
  · intro hnone
    simp [gameOverRun, increment_game_state, set_score_session, hg, hnone]
  · simp [increment_game_state, release_game_state]

/-- C10 witness: on a never-initialized handshake the game-over
transition throws (returns no result). -/
theorem c10_increment_totality_witness :
    gameOverRun true game0 c10S = none := by
  have h := c10_increment_totality "Player 1" 0 true game0 c10S c10S rfl
  exact h.2.1 rfl

end GradeRain
